import Mathlib

/-!
Verification of the session-synchronization middleware, the signup saga and the
change-feed refetch logic embedded in the repository's rule document
(`.cursor/rules/supabase_ssr_client_use.mdc`).

The shallow embedding models the TypeScript snippets directly:
* `updateSession` (middleware, lines 85-124): cookie capture via `setAll`,
  `getUser` validation, and the protected-route redirect;
* `signup` (server action, lines 150-189): two-store saga with a compensating
  `deleteUser` call;
* `ClientDataComponent` (lines 224-268): refetch-on-change-event logic.

Remote calls (Supabase `getUser`, `signUp`, `insert`, `deleteUser`, the table
contents) are modelled by an environment record describing the observable
outcome of each call; the functions below are the literal control flow of the
source over those outcomes.
-/

namespace HealthCoach

/-- A cookie as handled by the middleware: `(name, value, options)` triples as
passed to `cookies.set(name, value, options)`. -/
structure Cookie where
  name : String
  value : String
  attributes : List (String × String)
deriving DecidableEq, Repr

/-- The components of `request.nextUrl` that the middleware can read or write. -/
structure URL where
  host : String
  port : Option Nat
  pathname : String
  query : String
  fragment : String
deriving DecidableEq, Repr

/-- The parts of a `NextRequest` the middleware consumes. -/
structure Request where
  cookies : List Cookie
  nextUrl : URL
deriving DecidableEq, Repr

/-- A `NextResponse` as produced by the middleware: either a pass-through
`NextResponse.next` or a `NextResponse.redirect`, each carrying the cookies set
on it. -/
inductive Response where
  | next (cookies : List Cookie)
  | redirect (url : URL) (cookies : List Cookie)
deriving DecidableEq, Repr

/-- `response.cookies.set(name, value, options)`: overwrites an existing cookie
of the same name, otherwise appends. -/
def setCookie (cs : List Cookie) (c : Cookie) : List Cookie :=
  if cs.any (fun c2 => c2.name == c.name) then
    cs.map (fun c2 => if c2.name == c.name then c else c2)
  else
    cs ++ [c]

/-- One `setAll(cookiesToSet)` call (middleware lines 96-104): a fresh
`NextResponse.next({ request })` is created (so its cookie set starts empty) and
every cookie of the batch is set on it, in order. -/
def setAll (cookiesToSet : List Cookie) : List Cookie :=
  cookiesToSet.foldl setCookie []

/-- The cookies on `supabaseResponse` after the `getUser` call: each `setAll`
call replaces `supabaseResponse` by a fresh response carrying only that batch,
so only the last batch survives; with no `setAll` call the initial
`NextResponse.next({ request })` carries no set-cookies. -/
def supabaseResponseCookies (batches : List (List Cookie)) : List Cookie :=
  match batches.getLast? with
  | none => []
  | some b => setAll b

/-- The observable outcome of `supabase.auth.getUser()` inside the middleware:
the returned user (or absent) and the batches of cookie mutations the client
pushed through the `setAll` handler while refreshing the session. -/
structure AuthEnv where
  user : Option String
  setAllBatches : List (List Cookie)
deriving DecidableEq, Repr

/-- The static protected-path table (middleware line 114). -/
def protectedRoutes : List String := ["/dashboard"]

/-- JS `s.startsWith(pre)`: `pre` is a character-wise prefix of `s`. Kept as a
computation over the character lists so that concrete instances evaluate. -/
def startsWith (s pre : String) : Bool :=
  pre.data.isPrefixOf s.data

/-- The route-guard decision data type of the spec. -/
inductive Decision where
  | allow
  | redirectTo (path : String)
deriving DecidableEq, Repr

/-- The route-guard decision implemented by middleware lines 116-120:
redirect to `/login` exactly when the user is absent and the pathname starts
with some protected prefix. -/
def routeDecision (pathname : String) (user : Option String) : Decision :=
  if user.isNone && protectedRoutes.any (fun p => startsWith pathname p) then
    Decision.redirectTo "/login"
  else
    Decision.allow

/-- `updateSession` (middleware lines 85-124), literally: build
`supabaseResponse` (whose cookies are those of the last `setAll` batch), call
`getUser`, and either return a fresh `NextResponse.redirect(url)` — which
carries no cookies — or return `supabaseResponse`. -/
def updateSession (request : Request) (env : AuthEnv) : Response :=
  let supabaseResponse := Response.next (supabaseResponseCookies env.setAllBatches)
  if env.user.isNone
      && protectedRoutes.any (fun p => startsWith request.nextUrl.pathname p) then
    Response.redirect { request.nextUrl with pathname := "/login" } []
  else
    supabaseResponse

/-- Packaging of a decision into the response the middleware returns for it. -/
def applyDecision (request : Request) (respCookies : List Cookie) :
    Decision → Response
  | Decision.allow => Response.next respCookies
  | Decision.redirectTo p =>
      Response.redirect { request.nextUrl with pathname := p } []

theorem updateSession_eq_applyDecision (request : Request) (env : AuthEnv) :
    updateSession request env =
      applyDecision request (supabaseResponseCookies env.setAllBatches)
        (routeDecision request.nextUrl.pathname env.user) := by
  unfold updateSession routeDecision applyDecision
  by_cases h : (env.user.isNone
      && protectedRoutes.any (fun p => startsWith request.nextUrl.pathname p)) = true
  · simp [h]
  · simp [h]

/-- The token-refresh outcomes the identity provider can report for the
incoming cookie set. -/
inductive TokenStatus where
  | valid (uid : String) (renewedToken : String)
  | expired
  | absent
  | rejected
  | unreachable
deriving DecidableEq, Repr

/-- Whether the status is one of the failure outcomes (expired, absent,
rejected token, or unreachable provider). -/
def TokenStatus.isFailure : TokenStatus → Bool
  | TokenStatus.valid _ _ => false
  | _ => true

/-- Modelled from the spec: the internals of `supabase.auth.getUser()` — the
`@supabase/ssr` client's validate/refresh-session step — are not part of this
repository's sources; only its call site in `updateSession` is. Per the spec,
`refresh(incomingCookies)` returns `(user | absent, outgoingCookieMutations)`;
on failure (provider unreachable or token rejected/expired/absent) it returns
`user = absent` together with an empty or clearing mutation set, as a total
function — it never throws for an expired/invalid session. -/
def refresh (_incomingCookies : List Cookie) (status : TokenStatus) :
    Option String × List (List Cookie) :=
  match status with
  | TokenStatus.valid uid tok =>
      (some uid, [[⟨"sb-access-token", tok, []⟩]])
  | TokenStatus.expired =>
      (none, [[⟨"sb-access-token", "", [("Max-Age", "0")]⟩,
               ⟨"sb-refresh-token", "", [("Max-Age", "0")]⟩]])
  | TokenStatus.rejected =>
      (none, [[⟨"sb-access-token", "", [("Max-Age", "0")]⟩,
               ⟨"sb-refresh-token", "", [("Max-Age", "0")]⟩]])
  | TokenStatus.absent => (none, [])
  | TokenStatus.unreachable => (none, [])

/-- A mutation set is empty or clearing when every mutation it contains erases
its cookie's value. -/
def clearingOrEmpty (batches : List (List Cookie)) : Bool :=
  batches.all (fun b => b.all (fun c => c.value == ""))

/-- C1: the claim asserts that every captured cookie mutation appears on the
redirect response returned by `updateSession`. The code contradicts it: on a
request to `/dashboard` with no user, where the refresh captured a clearing
mutation for `sb-access-token`, `updateSession` returns a fresh
`NextResponse.redirect` carrying no cookies at all, even though
`supabaseResponse` holds the captured mutation. -/
theorem updateSession_drops_mutations_on_redirect :
    updateSession
        ⟨[⟨"sb-access-token", "expired-token", []⟩],
         ⟨"app.example.com", some 443, "/dashboard", "tab=1", ""⟩⟩
        ⟨none, [[⟨"sb-access-token", "", [("Max-Age", "0")]⟩]]⟩
      = Response.redirect ⟨"app.example.com", some 443, "/login", "tab=1", ""⟩ [] ∧
    supabaseResponseCookies [[⟨"sb-access-token", "", [("Max-Age", "0")]⟩]]
      = [⟨"sb-access-token", "", [("Max-Age", "0")]⟩] := by
  constructor
  · rfl
  · rfl

/-- C4: the route-guard decision is `RedirectTo "/login"` exactly on a
protected path with an absent user; with a present user, or on a path no
protected prefix matches, it is `Allow`. -/
theorem routeDecision_correct (path : String) (user : Option String) :
    ((∃ p ∈ protectedRoutes, startsWith path p = true) ∧ user = none →
        routeDecision path user = Decision.redirectTo "/login") ∧
    (∀ u, user = some u → routeDecision path user = Decision.allow) ∧
    ((∀ p ∈ protectedRoutes, startsWith path p = false) →
        routeDecision path user = Decision.allow) := by
  refine ⟨?_, ?_, ?_⟩
  · rintro ⟨⟨p, hp, hpre⟩, rfl⟩
    simp only [routeDecision, Option.isNone_none, Bool.true_and]
    rw [if_pos]
    exact List.any_eq_true.mpr ⟨p, hp, hpre⟩
  · rintro u rfl
    simp [routeDecision]
  · intro h
    unfold routeDecision
    rw [if_neg]
    simp only [Bool.and_eq_true, List.any_eq_true]
    rintro ⟨-, p, hp, hpre⟩
    exact absurd (h p hp) (by simp [hpre])

/-- Witness for C4 at concrete inputs. -/
theorem routeDecision_correct_witness :
    routeDecision "/dashboard/settings" none = Decision.redirectTo "/login" ∧
    routeDecision "/dashboard/settings" (some "u1") = Decision.allow ∧
    routeDecision "/about" none = Decision.allow := by
  refine ⟨?_, ?_, ?_⟩
  · exact (routeDecision_correct "/dashboard/settings" none).1
      ⟨⟨"/dashboard", by simp [protectedRoutes], by decide⟩, rfl⟩
  · exact (routeDecision_correct "/dashboard/settings" (some "u1")).2.1 "u1" rfl
  · exact (routeDecision_correct "/about" none).2.2 (by decide)

/-- C9: the redirect produced for an unauthenticated request to a protected
path targets the request's own URL with only the pathname replaced by
`/login`; host, port, query string and fragment are unchanged. -/
theorem updateSession_redirect_same_url (request : Request) (env : AuthEnv)
    (hu : env.user = none)
    (hp : protectedRoutes.any
        (fun p => startsWith request.nextUrl.pathname p) = true) :
    updateSession request env =
      Response.redirect
        { host := request.nextUrl.host, port := request.nextUrl.port,
          pathname := "/login", query := request.nextUrl.query,
          fragment := request.nextUrl.fragment } [] := by
  unfold updateSession
  rw [if_pos (by simp [hu, hp])]

/-- Witness for C9 at a concrete request. -/
theorem updateSession_redirect_same_url_witness :
    updateSession
        ⟨[], ⟨"app.example.com", some 8443, "/dashboard/reports", "from=home", "sec"⟩⟩
        ⟨none, []⟩
      = Response.redirect
          ⟨"app.example.com", some 8443, "/login", "from=home", "sec"⟩ [] :=
  updateSession_redirect_same_url
    ⟨[], ⟨"app.example.com", some 8443, "/dashboard/reports", "from=home", "sec"⟩⟩
    ⟨none, []⟩ rfl (by decide)

/-- C5: for every incoming cookie set with a failed/absent/rejected session,
the refresh step returns `user = absent` with an empty or clearing mutation
set (it is a total function, so it never throws), and `updateSession` run on
that result proceeds to — and is fully determined by — the routing decision. -/
theorem refresh_failure_is_logged_out (incomingCookies : List Cookie)
    (status : TokenStatus) (h : status.isFailure = true) (request : Request) :
    (refresh incomingCookies status).1 = none ∧
    clearingOrEmpty (refresh incomingCookies status).2 = true ∧
    updateSession request
        ⟨(refresh incomingCookies status).1, (refresh incomingCookies status).2⟩
      = applyDecision request
          (supabaseResponseCookies (refresh incomingCookies status).2)
          (routeDecision request.nextUrl.pathname
            (refresh incomingCookies status).1) := by
  refine ⟨?_, ?_, updateSession_eq_applyDecision _ _⟩
  · cases status <;> first | rfl | exact absurd h (by simp [TokenStatus.isFailure])
  · cases status <;> first | rfl | exact absurd h (by simp [TokenStatus.isFailure])

/-- Witness for C5: an expired token on a request to a protected path. -/
theorem refresh_failure_is_logged_out_witness :
    (refresh [⟨"sb-access-token", "stale", []⟩] TokenStatus.expired).1 = none ∧
    clearingOrEmpty
      (refresh [⟨"sb-access-token", "stale", []⟩] TokenStatus.expired).2 = true ∧
    updateSession ⟨[], ⟨"h", none, "/dashboard", "", ""⟩⟩
        ⟨(refresh [⟨"sb-access-token", "stale", []⟩] TokenStatus.expired).1,
         (refresh [⟨"sb-access-token", "stale", []⟩] TokenStatus.expired).2⟩
      = applyDecision ⟨[], ⟨"h", none, "/dashboard", "", ""⟩⟩
          (supabaseResponseCookies
            (refresh [⟨"sb-access-token", "stale", []⟩] TokenStatus.expired).2)
          (routeDecision "/dashboard"
            (refresh [⟨"sb-access-token", "stale", []⟩] TokenStatus.expired).1) :=
  refresh_failure_is_logged_out [⟨"sb-access-token", "stale", []⟩]
    TokenStatus.expired rfl ⟨[], ⟨"h", none, "/dashboard", "", ""⟩⟩

/-- The signup form data: `{ email, password }`. -/
structure SignupRequest where
  email : String
  password : String
deriving DecidableEq, Repr

/-- An identity record owned by the identity provider. -/
structure Identity where
  id : String
  email : String
deriving DecidableEq, Repr

/-- A row of the `profiles` table, as inserted by `signup`. -/
structure Profile where
  id : String
  email : String
  role : String
deriving DecidableEq, Repr

/-- The two external stores the saga touches. -/
structure Stores where
  identities : List Identity
  profiles : List Profile
deriving DecidableEq, Repr

/-- The remote store operations `signup` can issue, in issue order. -/
inductive Op where
  | signUpCall (email password : String)
  | profileInsert (p : Profile)
  | deleteUser (id : String)
deriving DecidableEq, Repr

/-- The terminal outcomes of the `signup` server action: a redirect to
`/login` carrying a message, or the success redirect to `/dashboard`. -/
inductive SignupOutcome where
  | redirectLogin (message : String)
  | redirectDashboard
deriving DecidableEq, Repr

/-- The observable outcomes of the remote calls `signup` may issue:
`signUpError` is `auth.signUp`'s error slot, `signUpUserId` is
`authData.user?.id` when `signUp` reported success, `profileError` is the
error slot the `profiles` insert would report if issued, and `deleteError`
the error `auth.admin.deleteUser` would report if issued. A created identity
is observable in the store exactly when `signUp` returns its id. -/
structure SagaEnv where
  signUpError : Option String
  signUpUserId : Option String
  profileError : Option String
  deleteError : Option String
deriving DecidableEq, Repr

/-- The result of one `signup` execution: the redirect returned, the final
store contents, and the trace of store operations issued. -/
structure SignupRun where
  outcome : SignupOutcome
  stores : Stores
  trace : List Op
deriving DecidableEq, Repr

/-- `signup` (server action, source lines 150-189), literally: call
`auth.signUp`; on error redirect with "Could not create account."; if the
returned user has no id, redirect with "Account creation failed."; otherwise
insert `{ id: userId, email, role: "coach" }` into `profiles`; on insert error
run `auth.admin.deleteUser(userId)` — whose own result is discarded — and
redirect with "Account setup failed."; on success redirect to `/dashboard`. -/
def signup (req : SignupRequest) (env : SagaEnv) (s : Stores) : SignupRun :=
  let t0 := [Op.signUpCall req.email req.password]
  match env.signUpError with
  | some _ => ⟨SignupOutcome.redirectLogin "Could not create account.", s, t0⟩
  | none =>
    match env.signUpUserId with
    | none => ⟨SignupOutcome.redirectLogin "Account creation failed.", s, t0⟩
    | some userId =>
      let s1 : Stores := { s with identities := s.identities ++ [⟨userId, req.email⟩] }
      let prof : Profile := ⟨userId, req.email, "coach"⟩
      let t1 := t0 ++ [Op.profileInsert prof]
      match env.profileError with
      | none =>
          ⟨SignupOutcome.redirectDashboard,
           { s1 with profiles := s1.profiles ++ [prof] }, t1⟩
      | some _ =>
          let t2 := t1 ++ [Op.deleteUser userId]
          match env.deleteError with
          | none =>
              ⟨SignupOutcome.redirectLogin "Account setup failed.",
               { s1 with identities :=
                  s1.identities.filter (fun i => !(i.id == userId)) }, t2⟩
          | some _ =>
              ⟨SignupOutcome.redirectLogin "Account setup failed.", s1, t2⟩

/-- Number of identities with the given id in the store. -/
def countId (st : Stores) (uid : String) : Nat :=
  (st.identities.filter (fun i => i.id == uid)).length

/-- Number of profiles with the given id in the store. -/
def countProfile (st : Stores) (uid : String) : Nat :=
  (st.profiles.filter (fun p => p.id == uid)).length

/-- C2: the claim asserts a distinct `CompensationFailure` outcome carrying
both errors when the compensating delete also fails. The code contradicts it:
with identity creation succeeding, profile creation failing, and the delete
failing, `signup` discards the delete's error and returns exactly the same
"Account setup failed." redirect as when the delete succeeds — the two cases
are merged and neither error is carried. -/
theorem signup_compensation_outcome_merged :
    (signup ⟨"a@x.com", "pw"⟩
        ⟨none, some "U1", some "profiles insert rejected", some "delete failed"⟩
        ⟨[], []⟩).outcome
      = SignupOutcome.redirectLogin "Account setup failed." ∧
    (signup ⟨"a@x.com", "pw"⟩
        ⟨none, some "U1", some "profiles insert rejected", none⟩
        ⟨[], []⟩).outcome
      = SignupOutcome.redirectLogin "Account setup failed." := by
  exact ⟨rfl, rfl⟩

/-- Counterexample to C3 as stated: a compensation-failure run (identity
orphaned in the store) yields the very same outcome as the corresponding
successful-compensation run (stores clean), so the compensation-failure case
is not independently detectable from the returned outcome. -/
theorem signup_compFailure_not_detectable :
    (signup ⟨"b@x.com", "pw"⟩
        ⟨none, some "U2", some "profiles insert rejected", some "delete failed"⟩
        ⟨[], []⟩).outcome
      = (signup ⟨"b@x.com", "pw"⟩
          ⟨none, some "U2", some "profiles insert rejected", none⟩
          ⟨[], []⟩).outcome ∧
    countId (signup ⟨"b@x.com", "pw"⟩
        ⟨none, some "U2", some "profiles insert rejected", some "delete failed"⟩
        ⟨[], []⟩).stores "U2" = 1 ∧
    countId (signup ⟨"b@x.com", "pw"⟩
        ⟨none, some "U2", some "profiles insert rejected", none⟩
        ⟨[], []⟩).stores "U2" = 0 := by
  refine ⟨rfl, ?_, ?_⟩ <;> decide

lemma filter_id_eq_nil {l : List Identity} {uid : String}
    (h : ∀ i ∈ l, i.id ≠ uid) : l.filter (fun i => i.id == uid) = [] :=
  List.filter_eq_nil_iff.mpr (fun i hi => by simpa using h i hi)

lemma filter_profile_eq_nil {l : List Profile} {uid : String}
    (h : ∀ p ∈ l, p.id ≠ uid) : l.filter (fun p => p.id == uid) = [] :=
  List.filter_eq_nil_iff.mpr (fun p hp => by simpa using h p hp)

lemma forall_id_ne_of_deleted (l : List Identity) (v : String) (e : String)
    (uid : String) (hI : ∀ i ∈ l, i.id ≠ uid) :
    ∀ i ∈ (l ++ [(⟨v, e⟩ : Identity)]).filter (fun i => !(i.id == v)),
      i.id ≠ uid := by
  intro i hi
  have h1 := List.mem_filter.mp hi
  rcases List.mem_append.mp h1.1 with h2 | h2
  · exact hI i h2
  · have h3 : i = (⟨v, e⟩ : Identity) := by simpa using h2
    subst h3
    have h4 : ¬ ((⟨v, e⟩ : Identity).id = v) := by simpa using h1.2
    exact absurd rfl h4

/-- C3, amended: over stores that start empty of the new account, the final
state has either exactly one Identity and one Profile with the account id
(and signup reported success), or zero of each; in the compensation-failure
case the orphaned Identity remains with no Profile, and that case is never
reported as success — though (see the counterexample) it is not
distinguishable from the successful-compensation case by the returned
outcome alone. -/
theorem signup_atomicity (req : SignupRequest) (env : SagaEnv) (s : Stores)
    (uid : String)
    (hI : ∀ i ∈ s.identities, i.id ≠ uid)
    (hP : ∀ p ∈ s.profiles, p.id ≠ uid) :
    (countId (signup req env s).stores uid = 1 ∧
       countProfile (signup req env s).stores uid = 1 ∧
       (signup req env s).outcome = SignupOutcome.redirectDashboard) ∨
    (countId (signup req env s).stores uid = 0 ∧
       countProfile (signup req env s).stores uid = 0) ∨
    (env.signUpError = none ∧ env.signUpUserId = some uid ∧
       env.profileError ≠ none ∧ env.deleteError ≠ none ∧
       countId (signup req env s).stores uid = 1 ∧
       countProfile (signup req env s).stores uid = 0 ∧
       (signup req env s).outcome ≠ SignupOutcome.redirectDashboard) := by
  obtain ⟨se, su, pe, de⟩ := env
  have hIn := filter_id_eq_nil hI
  have hPn := filter_profile_eq_nil hP
  cases se with
  | some e =>
      right; left
      constructor
      · simpa [countId, signup] using congrArg List.length hIn
      · simpa [countProfile, signup] using congrArg List.length hPn
  | none =>
  cases su with
  | none =>
      right; left
      constructor
      · simpa [countId, signup] using congrArg List.length hIn
      · simpa [countProfile, signup] using congrArg List.length hPn
  | some v =>
  cases pe with
  | none =>
      by_cases hv : v = uid
      · subst hv
        left
        refine ⟨?_, ?_, by simp [signup]⟩
        · simp [countId, signup, List.filter_append, hIn]
        · simp [countProfile, signup, List.filter_append, hPn]
      · right; left
        constructor
        · simp [countId, signup, List.filter_append, hIn, hv]
        · simp [countProfile, signup, List.filter_append, hPn, hv]
  | some perr =>
  cases de with
  | none =>
      right; left
      have hdel := forall_id_ne_of_deleted s.identities v req.email uid hI
      constructor
      · simpa [countId, signup] using
          congrArg List.length (filter_id_eq_nil hdel)
      · simpa [countProfile, signup] using congrArg List.length hPn
  | some derr =>
      by_cases hv : v = uid
      · subst hv
        right; right
        refine ⟨rfl, rfl, by simp, by simp, ?_, ?_, by simp [signup]⟩
        · simp [countId, signup, List.filter_append, hIn]
        · simpa [countProfile, signup] using congrArg List.length hPn
      · right; left
        constructor
        · simp [countId, signup, List.filter_append, hIn, hv]
        · simpa [countProfile, signup] using congrArg List.length hPn

/-- Witness for C3 at a concrete successful run over empty stores. -/
theorem signup_atomicity_witness :
    (countId (signup ⟨"w@x.com", "pw"⟩ ⟨none, some "U7", none, none⟩
          ⟨[], []⟩).stores "U7" = 1 ∧
       countProfile (signup ⟨"w@x.com", "pw"⟩ ⟨none, some "U7", none, none⟩
          ⟨[], []⟩).stores "U7" = 1 ∧
       (signup ⟨"w@x.com", "pw"⟩ ⟨none, some "U7", none, none⟩
          ⟨[], []⟩).outcome = SignupOutcome.redirectDashboard) ∨
    (countId (signup ⟨"w@x.com", "pw"⟩ ⟨none, some "U7", none, none⟩
          ⟨[], []⟩).stores "U7" = 0 ∧
       countProfile (signup ⟨"w@x.com", "pw"⟩ ⟨none, some "U7", none, none⟩
          ⟨[], []⟩).stores "U7" = 0) ∨
    ((⟨none, some "U7", none, none⟩ : SagaEnv).signUpError = none ∧
       (⟨none, some "U7", none, none⟩ : SagaEnv).signUpUserId = some "U7" ∧
       (⟨none, some "U7", none, none⟩ : SagaEnv).profileError ≠ none ∧
       (⟨none, some "U7", none, none⟩ : SagaEnv).deleteError ≠ none ∧
       countId (signup ⟨"w@x.com", "pw"⟩ ⟨none, some "U7", none, none⟩
          ⟨[], []⟩).stores "U7" = 1 ∧
       countProfile (signup ⟨"w@x.com", "pw"⟩ ⟨none, some "U7", none, none⟩
          ⟨[], []⟩).stores "U7" = 0 ∧
       (signup ⟨"w@x.com", "pw"⟩ ⟨none, some "U7", none, none⟩
          ⟨[], []⟩).outcome ≠ SignupOutcome.redirectDashboard) :=
  signup_atomicity ⟨"w@x.com", "pw"⟩ ⟨none, some "U7", none, none⟩ ⟨[], []⟩ "U7"
    (by simp) (by simp)

/-- Whether a store operation is the compensating `deleteUser` call. -/
def isDeleteOp : Op → Bool
  | Op.deleteUser _ => true
  | _ => false

/-- C6: in every signup execution the compensating delete is issued at most
once; it is issued exactly when `signUp` succeeded with a user id and the
profile insert failed; when identity creation fails the trace is the single
`signUp` call; and every issued delete closes a trace in which the profile
insert was already issued before it. -/
theorem signup_compensation_protocol (req : SignupRequest) (env : SagaEnv)
    (s : Stores) :
    ((signup req env s).trace.filter isDeleteOp).length ≤ 1 ∧
    ((∃ uid, Op.deleteUser uid ∈ (signup req env s).trace) ↔
      (env.signUpError = none ∧ env.signUpUserId ≠ none ∧
        env.profileError ≠ none)) ∧
    (env.signUpError ≠ none →
      (signup req env s).trace = [Op.signUpCall req.email req.password]) ∧
    (∀ uid, Op.deleteUser uid ∈ (signup req env s).trace →
      (signup req env s).trace =
        [Op.signUpCall req.email req.password,
         Op.profileInsert ⟨uid, req.email, "coach"⟩,
         Op.deleteUser uid]) := by
  obtain ⟨se, su, pe, de⟩ := env
  cases se <;> cases su <;> cases pe <;> cases de <;>
    simp [signup, isDeleteOp]

/-- Witness for C6 at a concrete run whose profile insert fails. -/
theorem signup_compensation_protocol_witness :
    ((signup ⟨"c@x.com", "pw"⟩ ⟨none, some "U3", some "err", none⟩
        ⟨[], []⟩).trace.filter isDeleteOp).length ≤ 1 ∧
    ((∃ uid, Op.deleteUser uid ∈ (signup ⟨"c@x.com", "pw"⟩
          ⟨none, some "U3", some "err", none⟩ ⟨[], []⟩).trace) ↔
      ((⟨none, some "U3", some "err", none⟩ : SagaEnv).signUpError = none ∧
        (⟨none, some "U3", some "err", none⟩ : SagaEnv).signUpUserId ≠ none ∧
        (⟨none, some "U3", some "err", none⟩ : SagaEnv).profileError ≠ none)) ∧
    ((⟨none, some "U3", some "err", none⟩ : SagaEnv).signUpError ≠ none →
      (signup ⟨"c@x.com", "pw"⟩ ⟨none, some "U3", some "err", none⟩
          ⟨[], []⟩).trace = [Op.signUpCall "c@x.com" "pw"]) ∧
    (∀ uid, Op.deleteUser uid ∈ (signup ⟨"c@x.com", "pw"⟩
          ⟨none, some "U3", some "err", none⟩ ⟨[], []⟩).trace →
      (signup ⟨"c@x.com", "pw"⟩ ⟨none, some "U3", some "err", none⟩
          ⟨[], []⟩).trace =
        [Op.signUpCall "c@x.com" "pw",
         Op.profileInsert ⟨uid, "c@x.com", "coach"⟩,
         Op.deleteUser uid]) :=
  signup_compensation_protocol ⟨"c@x.com", "pw"⟩
    ⟨none, some "U3", some "err", none⟩ ⟨[], []⟩

/-- C8: when `signUp` reports success but the returned user carries no id,
signup redirects with "Account creation failed.", issues nothing beyond the
`signUp` call (no profile insert, no compensating delete), and leaves the
profiles store unchanged. -/
theorem signup_missing_user_id (req : SignupRequest) (env : SagaEnv)
    (s : Stores) (h1 : env.signUpError = none) (h2 : env.signUpUserId = none) :
    (signup req env s).outcome
        = SignupOutcome.redirectLogin "Account creation failed." ∧
    (signup req env s).trace = [Op.signUpCall req.email req.password] ∧
    (signup req env s).stores.profiles = s.profiles := by
  obtain ⟨se, su, pe, de⟩ := env
  cases h1
  cases h2
  simp [signup]

/-- Witness for C8 at a concrete input. -/
theorem signup_missing_user_id_witness :
    (signup ⟨"e@x.com", "pw"⟩ ⟨none, none, none, none⟩ ⟨[], []⟩).outcome
        = SignupOutcome.redirectLogin "Account creation failed." ∧
    (signup ⟨"e@x.com", "pw"⟩ ⟨none, none, none, none⟩ ⟨[], []⟩).trace
        = [Op.signUpCall "e@x.com" "pw"] ∧
    (signup ⟨"e@x.com", "pw"⟩ ⟨none, none, none, none⟩
        ⟨[], []⟩).stores.profiles = ([] : List Profile) :=
  signup_missing_user_id ⟨"e@x.com", "pw"⟩ ⟨none, none, none, none⟩ ⟨[], []⟩
    rfl rfl

/-- C10: every profile record added by `signup` has the identity's id, the
request's email, and role `"coach"`; on the success outcome the stores gained
exactly the identity returned by `signUp` and that one profile. -/
theorem signup_profile_fields (req : SignupRequest) (env : SagaEnv)
    (s : Stores) :
    (∀ p ∈ (signup req env s).stores.profiles,
        p ∈ s.profiles ∨
          (p.role = "coach" ∧ p.email = req.email ∧
            env.signUpUserId = some p.id)) ∧
    ((signup req env s).outcome = SignupOutcome.redirectDashboard →
      ∃ uid, env.signUpUserId = some uid ∧
        (signup req env s).stores.identities
            = s.identities ++ [⟨uid, req.email⟩] ∧
        (signup req env s).stores.profiles
            = s.profiles ++ [⟨uid, req.email, "coach"⟩]) := by
  obtain ⟨se, su, pe, de⟩ := env
  cases se <;> cases su <;> cases pe <;> cases de <;>
    simp [signup] <;>
    first
      | exact fun p hp => Or.inl hp
      | (refine fun p hp => hp.elim Or.inl fun h => Or.inr ?_
         subst h
         exact ⟨rfl, rfl, rfl⟩)

/-- Witness for C10 at a concrete successful run. -/
theorem signup_profile_fields_witness :
    (∀ p ∈ (signup ⟨"d@x.com", "pw"⟩ ⟨none, some "U4", none, none⟩
          ⟨[], []⟩).stores.profiles,
        p ∈ ([] : List Profile) ∨
          (p.role = "coach" ∧ p.email = "d@x.com" ∧
            (⟨none, some "U4", none, none⟩ : SagaEnv).signUpUserId
              = some p.id)) ∧
    ((signup ⟨"d@x.com", "pw"⟩ ⟨none, some "U4", none, none⟩
          ⟨[], []⟩).outcome = SignupOutcome.redirectDashboard →
      ∃ uid, (⟨none, some "U4", none, none⟩ : SagaEnv).signUpUserId
            = some uid ∧
        (signup ⟨"d@x.com", "pw"⟩ ⟨none, some "U4", none, none⟩
            ⟨[], []⟩).stores.identities = [] ++ [⟨uid, "d@x.com"⟩] ∧
        (signup ⟨"d@x.com", "pw"⟩ ⟨none, some "U4", none, none⟩
            ⟨[], []⟩).stores.profiles = [] ++ [⟨uid, "d@x.com", "coach"⟩]) :=
  signup_profile_fields ⟨"d@x.com", "pw"⟩ ⟨none, some "U4", none, none⟩ ⟨[], []⟩

/-- A row of the subscribed table; `created_at` is the sort key of the
component's query. -/
structure Row where
  id : Nat
  created_at : Nat
deriving DecidableEq, Repr

/-- Insert a row into a list sorted by `created_at` descending. -/
def insertDesc (r : Row) : List Row → List Row
  | [] => [r]
  | x :: xs =>
      if x.created_at ≤ r.created_at then r :: x :: xs
      else x :: insertDesc r xs

/-- `.order("created_at", { ascending: false })`: the table's rows sorted by
`created_at` descending. -/
def orderByCreatedAtDesc (rows : List Row) : List Row :=
  rows.foldr insertDesc []

/-- The operation field of a change-feed wire event. -/
inductive ChangeOp where
  | insert
  | update
  | delete
deriving DecidableEq, Repr

/-- A change-feed wire event as delivered to the `postgres_changes` handler. -/
structure ChangeEvent where
  operation : ChangeOp
  schema : String
  table : String
  payload : List (String × String)
deriving DecidableEq, Repr

/-- The component's React state: the `data` and `loading` `useState` cells of
`ClientDataComponent`. -/
structure ComponentState where
  data : Option (List Row)
  loading : Bool
deriving DecidableEq, Repr

/-- `fetchData` (source lines 230-243): query the table ordered by
`created_at` descending; on error, log and return leaving the state as is;
on success, `setData(fetchedData)` and `setLoading(false)`. The table
contents and the query's error slot describe the unchanged external store. -/
def fetchData (table : List Row) (fetchError : Option String)
    (st : ComponentState) : ComponentState :=
  match fetchError with
  | some _ => st
  | none => { data := some (orderByCreatedAtDesc table), loading := false }

/-- The subscription handler (source lines 250-256): on any received
`ChangeEvent` the payload is only logged and `fetchData()` is re-run. -/
def onEvent (table : List Row) (fetchError : Option String)
    (_ev : ChangeEvent) (st : ComponentState) : ComponentState :=
  fetchData table fetchError st

/-- C7: refetch is idempotent — delivering the same `ChangeEvent` to the
handler twice against an unchanged store yields the same component data as
delivering it once. -/
theorem onEvent_idempotent (table : List Row) (fetchError : Option String)
    (ev : ChangeEvent) (st : ComponentState) :
    onEvent table fetchError ev (onEvent table fetchError ev st)
      = onEvent table fetchError ev st := by
  cases fetchError <;> rfl

end HealthCoach
